import Mathlib

/-!
Shallow embedding of `src/server.py`, a small Flask service with three
routes: `POST /transcribe` (audio ingestion, FFmpeg conversion, Whisper
backend), `POST /ask-ollama` (proxy to an Ollama generate endpoint) and
`GET /health`.  External effects (the FFmpeg subprocess, the two HTTP
backends, temp-file deletion) are modelled by an explicit environment
record, and the scratch-file lifecycle by an explicit trace record.
-/

namespace AudioServer

/-- A JSON value as it appears in the response bodies built by the server
(only strings, numbers and booleans occur). -/
inductive JVal where
  | str (s : String)
  | num (n : Nat)
  | boolean (b : Bool)
deriving DecidableEq, Repr

/-- An HTTP response: status code plus a JSON object body, modelled as an
association list of fields (mirroring the dict passed to `jsonify`). -/
structure HttpResponse where
  status : Nat
  body : List (String × JVal)
deriving DecidableEq, Repr

/-- The body `{"error": msg}` built by the error returns in `server.py`. -/
def errBody (msg : String) : List (String × JVal) := [("error", JVal.str msg)]

/-- The `error` field of a response body, when present and a string. -/
def errMsgOf (r : HttpResponse) : String :=
  match r.body.lookup "error" with
  | some (JVal.str m) => m
  | _ => ""

/-- `listStartsWith hay needle`: `needle` is a prefix of `hay` (character lists). -/
def listStartsWith : List Char → List Char → Bool
  | _, [] => true
  | [], _ :: _ => false
  | a :: as, b :: bs => (b = a) && listStartsWith as bs

/-- `occursIn needle hay`: `needle` occurs as a contiguous run inside `hay`. -/
def occursIn (needle : List Char) : List Char → Bool
  | [] => needle.isEmpty
  | c :: rest => listStartsWith (c :: rest) needle || occursIn needle rest

/-- Substring containment on strings (Python's `needle in hay`). -/
def strContains (hay needle : String) : Bool := occursIn needle.data hay.data

/-- String prefix test on strings. -/
def strStartsWith (hay needle : String) : Bool := listStartsWith hay.data needle.data

/-! ### Base64, modelled from Python's `base64` module

`b64encode` maps a byte sequence (naturals below 256) to the standard
base64 character sequence with `=` padding; `b64decode` inverts it,
returning `none` where Python's `b64decode` raises `binascii.Error`.
(The model is strict about non-alphabet characters where Python discards
them; no claim depends on that corner.) -/

/-- The standard base64 alphabet. -/
def b64alphabet : List Char :=
  "ABCDEFGHIJKLMNOPQRSTUVWXYZabcdefghijklmnopqrstuvwxyz0123456789+/".data

/-- The alphabet character of a 6-bit value. -/
def encChar (n : Nat) : Char := b64alphabet.getD n 'A'

/-- Position of a character in a character list. -/
def indexIn (c : Char) : List Char → Option Nat
  | [] => none
  | a :: rest => if c = a then some 0 else (indexIn c rest).map (· + 1)

/-- The 6-bit value of an alphabet character (`none` off the alphabet). -/
def decChar (c : Char) : Option Nat := indexIn c b64alphabet

/-- Base64 encoding of a byte list, three bytes to four characters, with
`=` padding on a final group of one or two bytes. -/
def b64encode : List Nat → List Char
  | [] => []
  | [a] => [encChar (a / 4), encChar (a % 4 * 16), '=', '=']
  | [a, b] => [encChar (a / 4), encChar (a % 4 * 16 + b / 16), encChar (b % 16 * 4), '=']
  | a :: b :: c :: rest =>
      encChar (a / 4) :: encChar (a % 4 * 16 + b / 16) ::
      encChar (b % 16 * 4 + c / 64) :: encChar (c % 64) :: b64encode rest

/-- Base64 decoding of a character list, `none` on malformed input. -/
def b64decode : List Char → Option (List Nat)
  | [] => some []
  | w :: x :: y :: z :: rest =>
      match decChar w, decChar x with
      | some hi, some lo =>
          if y = '=' ∧ z = '=' ∧ rest = [] then
            some [hi * 4 + lo / 16]
          else
            match decChar y with
            | some my =>
                if z = '=' ∧ rest = [] then
                  some [hi * 4 + lo / 16, lo % 16 * 16 + my / 4]
                else
                  match decChar z, b64decode rest with
                  | some mz, some tail =>
                      some ((hi * 4 + lo / 16) :: (lo % 16 * 16 + my / 4) ::
                            (my % 4 * 64 + mz) :: tail)
                  | _, _ => none
            | none => none
      | _, _ => none
  | _ => none

theorem decChar_encChar : ∀ n, n < 64 → decChar (encChar n) = some n := by decide

theorem encChar_ne_pad : ∀ n, n < 64 → encChar n ≠ '=' := by decide

/-- Decoding inverts encoding on genuine byte lists. -/
theorem b64_roundtrip : ∀ B : List Nat, (∀ b ∈ B, b < 256) →
    b64decode (b64encode B) = some B
  | [], _ => by simp [b64encode, b64decode]
  | [a], h => by
      have ha : a < 256 := h a (by simp)
      have h1 : decChar (encChar (a / 4)) = some (a / 4) := decChar_encChar _ (by omega)
      have h2 : decChar (encChar (a % 4 * 16)) = some (a % 4 * 16) :=
        decChar_encChar _ (by omega)
      simp [b64encode, b64decode, h1, h2]
      omega
  | [a, b], h => by
      have ha : a < 256 := h a (by simp)
      have hb : b < 256 := h b (by simp)
      have h1 : decChar (encChar (a / 4)) = some (a / 4) := decChar_encChar _ (by omega)
      have h2 : decChar (encChar (a % 4 * 16 + b / 16)) = some (a % 4 * 16 + b / 16) :=
        decChar_encChar _ (by omega)
      have h3 : decChar (encChar (b % 16 * 4)) = some (b % 16 * 4) :=
        decChar_encChar _ (by omega)
      have hn : encChar (b % 16 * 4) ≠ '=' := encChar_ne_pad _ (by omega)
      simp [b64encode, b64decode, h1, h2, h3, hn]
      omega
  | a :: b :: c :: rest, h => by
      have ha : a < 256 := h a (by simp)
      have hb : b < 256 := h b (by simp)
      have hc : c < 256 := h c (by simp)
      have ih : b64decode (b64encode rest) = some rest :=
        b64_roundtrip rest (fun x hx => h x (by simp [hx]))
      have h1 : decChar (encChar (a / 4)) = some (a / 4) := decChar_encChar _ (by omega)
      have h2 : decChar (encChar (a % 4 * 16 + b / 16)) = some (a % 4 * 16 + b / 16) :=
        decChar_encChar _ (by omega)
      have h3 : decChar (encChar (b % 16 * 4 + c / 64)) = some (b % 16 * 4 + c / 64) :=
        decChar_encChar _ (by omega)
      have h4 : decChar (encChar (c % 64)) = some (c % 64) := decChar_encChar _ (by omega)
      have hn3 : encChar (b % 16 * 4 + c / 64) ≠ '=' := encChar_ne_pad _ (by omega)
      have hn4 : encChar (c % 64) ≠ '=' := encChar_ne_pad _ (by omega)
      simp [b64encode, b64decode, h1, h2, h3, h4, hn3, hn4, ih]
      omega

/-! ### The FFmpeg converter `convert_audio_to_wav` -/

/-- The observable outcome of the FFmpeg invocation: whether the binary is
on the path (`subprocess.run` raises `FileNotFoundError` otherwise), the
exit status and captured stderr, and whether the output file exists and
its size. -/
structure FfmpegEnv where
  ffmpegOnPath : Bool
  returncode : Int
  stderr : String
  outputExists : Bool
  outputSize : Nat
deriving DecidableEq, Repr

/-- A Python exception as distinguished by the handlers of
`convert_audio_to_wav`: `FileNotFoundError` versus any other exception
with its message. -/
inductive PyExc where
  | fileNotFound
  | generic (msg : String)
deriving DecidableEq, Repr

/-- The `try` body of `convert_audio_to_wav` (lines 16-40 of `server.py`):
run FFmpeg, raise on non-zero exit, raise if the output file is missing or
empty, else return `True`. -/
def convert_body (env : FfmpegEnv) : Except PyExc Bool :=
  if env.ffmpegOnPath = false then Except.error PyExc.fileNotFound
  else if env.returncode ≠ 0 then
    Except.error (PyExc.generic ("FFmpeg conversion failed: " ++ env.stderr))
  else if env.outputExists = false ∨ env.outputSize = 0 then
    Except.error (PyExc.generic "Converted file is empty or doesn't exist")
  else Except.ok true

/-- `convert_audio_to_wav` with its two `except` clauses: a
`FileNotFoundError` becomes the install-hint message and propagates as is
(an exception raised inside an `except` handler is not re-caught by the
following handler of the same `try`), any other exception is re-raised
with the prefix `Audio conversion failed: `. -/
def convert_audio_to_wav (env : FfmpegEnv) : Except String Bool :=
  match convert_body env with
  | Except.ok b => Except.ok b
  | Except.error PyExc.fileNotFound =>
      Except.error "FFmpeg not found. Install it with: apt install ffmpeg"
  | Except.error (PyExc.generic m) =>
      Except.error ("Audio conversion failed: " ++ m)

/-! ### The `/transcribe` handler -/

/-- The parsed JSON body of a successful Whisper reply; each field may be
absent. -/
structure WhisperResp where
  text : Option String
  language : Option String
  duration : Option Nat
deriving DecidableEq, Repr

/-- The environment of one `/transcribe` request: the FFmpeg outcome, the
Whisper call outcome (`error` bundles `raise_for_status`, connection and
JSON-parse exceptions with their message), the message `str(e)` of a
base64 decode failure, and whether each `os.unlink` raises. -/
structure Env where
  ffmpeg : FfmpegEnv
  whisper : Except String WhisperResp
  b64errDetail : String
  unlinkRawFails : Bool
  unlinkWavFails : Bool

/-- The scratch-artifact trace of one request: creation and deletion of
the raw-input temp file and of the WAV output temp file, plus whether the
converter and the backend were invoked. -/
structure Scratch where
  rawCreated : Bool := false
  rawSuffix : String := ""
  rawContents : List Nat := []
  rawDeleted : Bool := false
  wavCreated : Bool := false
  wavDeleted : Bool := false
  convertCalled : Bool := false
  whisperCalled : Bool := false
deriving DecidableEq, Repr

/-- A `/transcribe` request, as the handler distinguishes them: a
multipart request with or without a `file` field; a JSON-content-type
request whose body parses, with or without an `audio_data` field
(`jsonBody none` covers a parsed-but-falsy body, such as JSON `null` or
`{}`, and a parsed object without the key — the `not data or 'audio_data'
not in data` test); a JSON-content-type request whose body fails JSON
parsing, where `request.get_json()` raises `BadRequest` carrying `excMsg`
(the default `silent=False` raises instead of returning `None`); or any
other content type. -/
inductive TranscribeRequest where
  | multipart (file : Option (List Nat))
  | jsonBody (audioData : Option String)
  | jsonMalformed (excMsg : String)
  | otherContentType
deriving DecidableEq, Repr

/-- The `finally` block (lines 137-144): both unlinks share one `try`
with a bare swallowed `except`, so a failure of the first unlink skips
the second and nothing escalates. -/
def cleanup (env : Env) (s : Scratch) : Scratch :=
  if env.unlinkRawFails then s
  else
    let s1 := { s with rawDeleted := true }
    if env.unlinkWavFails then s1 else { s1 with wavDeleted := true }

/-- The inner `try ... finally` of the handler (lines 95-144): create the
WAV temp file, convert, post to Whisper, build the success body; every
exception propagates to the outer handler as a 500, and `cleanup` runs on
every path. -/
def afterIngest (env : Env) (s0 : Scratch) : HttpResponse × Scratch :=
  match convert_audio_to_wav env.ffmpeg with
  | Except.error m =>
      (⟨500, errBody m⟩,
       cleanup env { s0 with wavCreated := true, convertCalled := true })
  | Except.ok _ =>
      match env.whisper with
      | Except.error m =>
          (⟨500, errBody m⟩,
           cleanup env { s0 with wavCreated := true, convertCalled := true,
                                 whisperCalled := true })
      | Except.ok r =>
          -- the handler also reads `duration` from `r` into a local that is
          -- used nowhere; the response carries only `status`, `text`, `language`
          (⟨200, [("status", JVal.str "success"),
                  ("text", JVal.str ((r.text.getD "").trim)),
                  ("language", JVal.str (r.language.getD "unknown"))]⟩,
           cleanup env { s0 with wavCreated := true, convertCalled := true,
                                 whisperCalled := true })

/-- The `/transcribe` handler (lines 47-154): ingestion of the request
envelope, then the convert-and-transcribe block, with each early `return`
of an input error as a 400 before any temp file exists.  A body that
fails JSON parsing makes `request.get_json()` raise inside the outer
`try`, so the generic handler at lines 146-154 answers it with a 500
carrying `str(e)` — the line-73 check is never reached. -/
def transcribe (req : TranscribeRequest) (env : Env) : HttpResponse × Scratch :=
  match req with
  | TranscribeRequest.multipart none => (⟨400, errBody "No file provided"⟩, {})
  | TranscribeRequest.multipart (some bytes) =>
      afterIngest env { rawCreated := true, rawSuffix := ".tmp", rawContents := bytes }
  | TranscribeRequest.jsonBody none =>
      (⟨400, errBody "No audio_data provided in JSON"⟩, {})
  | TranscribeRequest.jsonMalformed excMsg => (⟨500, errBody excMsg⟩, {})
  | TranscribeRequest.jsonBody (some s) =>
      match b64decode s.data with
      | none =>
          (⟨400, errBody ("Invalid base64 audio data: " ++ env.b64errDetail)⟩, {})
      | some bytes =>
          afterIngest env { rawCreated := true, rawSuffix := ".aac", rawContents := bytes }
  | TranscribeRequest.otherContentType =>
      (⟨400, errBody "Invalid content type. Use multipart/form-data or application/json"⟩, {})

/-! ### The `/ask-ollama` handler -/

/-- An `/ask-ollama` request: no (or empty) JSON body, or a JSON body
with optional `prompt` and `model` fields. -/
inductive OllamaRequest where
  | noJson
  | withJson (prompt : Option String) (model : Option String)
deriving DecidableEq, Repr

/-- The JSON payload posted to the Ollama generate endpoint. -/
structure OllamaPayload where
  model : String
  prompt : String
  stream : Bool
deriving DecidableEq, Repr

/-- The parsed JSON body of a successful Ollama reply. -/
structure OllamaResp where
  response : Option String
deriving DecidableEq, Repr

/-- The default model name used when the request has no `model` field. -/
def ollamaDefaultModel : String := "llama3.1:8b"

/-- The `/ask-ollama` handler (lines 156-182): reject a body without a
`prompt`, otherwise post `{model, prompt, stream:false}` and forward the
`response` field; any backend exception becomes a 500 with its message.
The first component records the payload posted, `none` when no post
happened. -/
def ask_ollama (req : OllamaRequest) (env : Except String OllamaResp) :
    Option OllamaPayload × HttpResponse :=
  match req with
  | OllamaRequest.noJson => (none, ⟨400, errBody "No prompt provided"⟩)
  | OllamaRequest.withJson none _ => (none, ⟨400, errBody "No prompt provided"⟩)
  | OllamaRequest.withJson (some p) m =>
      let payload : OllamaPayload := ⟨m.getD ollamaDefaultModel, p, false⟩
      match env with
      | Except.error msg => (some payload, ⟨500, errBody msg⟩)
      | Except.ok r =>
          (some payload,
           ⟨200, [("status", JVal.str "success"),
                  ("response", JVal.str (r.response.getD ""))]⟩)

/-! ### Helper lemmas on substring containment -/

theorem listStartsWith_append : ∀ (needle tail : List Char),
    listStartsWith (needle ++ tail) needle = true
  | [], _ => by simp [listStartsWith]
  | a :: as, t => by simp [listStartsWith, listStartsWith_append as t]

theorem listStartsWith_mono : ∀ (l t n : List Char),
    listStartsWith l n = true → listStartsWith (l ++ t) n = true
  | _, _, [], _ => by simp [listStartsWith]
  | [], _, _ :: _, h => by simp [listStartsWith] at h
  | a :: as, t, b :: bs, h => by
      simp [listStartsWith] at h ⊢
      exact ⟨h.1, listStartsWith_mono as t bs h.2⟩

theorem occursIn_of_startsWith : ∀ (hay needle : List Char),
    listStartsWith hay needle = true → occursIn needle hay = true
  | [], needle, h => by
      cases needle <;> simp_all [listStartsWith, occursIn]
  | c :: rest, needle, h => by simp [occursIn, h]

theorem occursIn_suffix : ∀ (pre needle : List Char), occursIn needle (pre ++ needle) = true
  | [], needle => by
      refine occursIn_of_startsWith needle needle ?_
      have := listStartsWith_append needle []
      simpa using this
  | p :: ps, needle => by
      simp [occursIn, occursIn_suffix ps needle]

theorem strStartsWith_append (pre tail : String) : strStartsWith (pre ++ tail) pre = true := by
  simp only [strStartsWith, String.data_append]
  exact listStartsWith_append pre.data tail.data

theorem strContains_prefix_append (needle pre tail : String)
    (h : listStartsWith pre.data needle.data = true) :
    strContains (pre ++ tail) needle = true := by
  simp only [strContains, String.data_append]
  exact occursIn_of_startsWith _ _ (listStartsWith_mono pre.data tail.data needle.data h)

theorem strContains_append_right (pre tail : String) : strContains (pre ++ tail) tail = true := by
  simp only [strContains, String.data_append]
  exact occursIn_suffix pre.data tail.data

/-! ### Helper lemmas on `cleanup` and `afterIngest` -/

theorem cleanup_preserves (env : Env) (s : Scratch) :
    (cleanup env s).rawContents = s.rawContents ∧
    (cleanup env s).rawSuffix = s.rawSuffix ∧
    (cleanup env s).rawCreated = s.rawCreated ∧
    (cleanup env s).wavCreated = s.wavCreated ∧
    (cleanup env s).convertCalled = s.convertCalled ∧
    (cleanup env s).whisperCalled = s.whisperCalled := by
  unfold cleanup
  cases h1 : env.unlinkRawFails <;> cases h2 : env.unlinkWavFails <;> simp

theorem cleanup_deletes (env : Env) (s : Scratch) (h1 : env.unlinkRawFails = false)
    (h2 : env.unlinkWavFails = false) :
    (cleanup env s).rawDeleted = true ∧ (cleanup env s).wavDeleted = true := by
  simp [cleanup, h1, h2]

theorem afterIngest_scratch_eq (env : Env) (s0 : Scratch) :
    ∃ s1 : Scratch, (afterIngest env s0).2 = cleanup env s1 ∧
      s1.rawContents = s0.rawContents ∧ s1.rawSuffix = s0.rawSuffix ∧
      s1.rawCreated = s0.rawCreated ∧ s1.wavCreated = true ∧ s1.convertCalled = true := by
  unfold afterIngest
  cases hc : convert_audio_to_wav env.ffmpeg with
  | error m => exact ⟨_, rfl, rfl, rfl, rfl, rfl, rfl⟩
  | ok b =>
      cases hw : env.whisper with
      | error m => exact ⟨_, rfl, rfl, rfl, rfl, rfl, rfl⟩
      | ok r => exact ⟨_, rfl, rfl, rfl, rfl, rfl, rfl⟩

theorem afterIngest_status (env : Env) (s0 : Scratch) :
    (afterIngest env s0).1.status = 500 ∨ (afterIngest env s0).1.status = 200 := by
  unfold afterIngest
  cases hc : convert_audio_to_wav env.ffmpeg with
  | error m => exact Or.inl rfl
  | ok b =>
      cases hw : env.whisper with
      | error m => exact Or.inl rfl
      | ok r => exact Or.inr rfl

theorem afterIngest_resp_indep (env : Env) (s0 : Scratch) :
    (afterIngest env s0).1 =
      (afterIngest { env with unlinkRawFails := false, unlinkWavFails := false } s0).1 := by
  have hf : ({ env with unlinkRawFails := false, unlinkWavFails := false } : Env).ffmpeg =
      env.ffmpeg := rfl
  have hw : ({ env with unlinkRawFails := false, unlinkWavFails := false } : Env).whisper =
      env.whisper := rfl
  unfold afterIngest
  rw [hf, hw]
  cases hc : convert_audio_to_wav env.ffmpeg with
  | error m => rfl
  | ok b =>
      cases hww : env.whisper with
      | error m => rfl
      | ok r => rfl

theorem strContains_append_right2 (a b t : String) : strContains (a ++ (b ++ t)) t = true := by
  simp only [strContains, String.data_append]
  have := occursIn_suffix (a.data ++ b.data) t.data
  simpa [List.append_assoc] using this

/-! ### Concrete environments used by the witnesses -/

/-- A concrete request environment on the happy path: FFmpeg succeeds,
Whisper replies, both deletions succeed. -/
def envOk : Env :=
  { ffmpeg := ⟨true, 0, "", true, 42⟩,
    whisper := Except.ok ⟨some "  hello  ", some "en", some 3⟩,
    b64errDetail := "Incorrect padding",
    unlinkRawFails := false,
    unlinkWavFails := false }

/-- A concrete environment in which the FFmpeg binary is absent. -/
def envNoFfmpeg : Env := { envOk with ffmpeg := ⟨false, 0, "", false, 0⟩ }

/-- A concrete environment in which FFmpeg exits with status 1. -/
def envFfmpegErr : Env := { envOk with ffmpeg := ⟨true, 1, "boom", false, 0⟩ }

/-- A concrete environment in which FFmpeg exits zero but leaves no
output file. -/
def envFfmpegEmptyOut : Env := { envOk with ffmpeg := ⟨true, 0, "", false, 0⟩ }

/-- A concrete environment in which the raw-input unlink raises. -/
def envUnlinkRaw : Env := { envOk with unlinkRawFails := true }

/-! ### The claims -/

/-- C2: `convert_audio_to_wav` fails exactly when the tool binary is not
on the path (with an actionable install hint in the message), or the tool
exits non-zero (message carrying the captured stderr), or the tool exits
zero but the output file is absent or empty; in all other cases it
succeeds and returns `true`. -/
theorem convert_audio_to_wav_spec (env : FfmpegEnv) :
    (convert_audio_to_wav env = Except.ok true ↔
      env.ffmpegOnPath = true ∧ env.returncode = 0 ∧ env.outputExists = true ∧
      env.outputSize ≠ 0) ∧
    (env.ffmpegOnPath = false →
      ∃ m, convert_audio_to_wav env = Except.error m ∧
        strContains m "apt install ffmpeg" = true) ∧
    (env.ffmpegOnPath = true → env.returncode ≠ 0 →
      ∃ m, convert_audio_to_wav env = Except.error m ∧
        strContains m env.stderr = true) ∧
    (env.ffmpegOnPath = true → env.returncode = 0 →
      env.outputExists = false ∨ env.outputSize = 0 →
      ∃ m, convert_audio_to_wav env = Except.error m) ∧
    (∀ b, convert_audio_to_wav env = Except.ok b → b = true) := by
  refine ⟨?_, ?_, ?_, ?_, ?_⟩
  · obtain ⟨p, rc, st, oe, os⟩ := env
    cases p <;> by_cases hrc : rc = 0 <;> cases oe <;> by_cases hos : os = 0 <;>
      simp [convert_audio_to_wav, convert_body, hrc, hos]
  · intro hp
    refine ⟨"FFmpeg not found. Install it with: apt install ffmpeg", ?_, by decide⟩
    simp [convert_audio_to_wav, convert_body, hp]
  · intro hp hrc
    refine ⟨"Audio conversion failed: " ++ ("FFmpeg conversion failed: " ++ env.stderr),
      ?_, strContains_append_right2 _ _ _⟩
    simp [convert_audio_to_wav, convert_body, hp, hrc]
  · intro hp hrc hoe
    refine ⟨"Audio conversion failed: " ++ "Converted file is empty or doesn't exist", ?_⟩
    unfold convert_audio_to_wav convert_body
    rw [if_neg (by simp [hp]), if_neg (by simp [hrc]), if_pos hoe]
  · intro b hb
    obtain ⟨p, rc, st, oe, os⟩ := env
    cases p <;> by_cases hrc : rc = 0 <;> cases oe <;> by_cases hos : os = 0 <;>
      simp_all [convert_audio_to_wav, convert_body]

/-- Witness for C2: with the binary absent, the converter fails with the
install hint. -/
theorem convert_audio_to_wav_spec_witness :
    (⟨false, 0, "", false, 0⟩ : FfmpegEnv).ffmpegOnPath = false ∧
    ∃ m, convert_audio_to_wav ⟨false, 0, "", false, 0⟩ = Except.error m ∧
      strContains m "apt install ffmpeg" = true :=
  ⟨rfl, (convert_audio_to_wav_spec ⟨false, 0, "", false, 0⟩).2.1 rfl⟩

/-- C9: the converter wraps error messages asymmetrically: a non-zero exit
or a missing/empty output is re-caught by the generic handler and its
message gains the prefix `Audio conversion failed: `, while a missing
binary propagates exactly `FFmpeg not found. Install it with: apt install
ffmpeg`, unprefixed; the `/transcribe` handler returns the converter's
message verbatim as the 500 body. -/
theorem conversion_error_wrapping (env : Env) (B : List Nat) :
    (env.ffmpeg.ffmpegOnPath = false →
      convert_audio_to_wav env.ffmpeg =
        Except.error "FFmpeg not found. Install it with: apt install ffmpeg" ∧
      strStartsWith "FFmpeg not found. Install it with: apt install ffmpeg"
        "Audio conversion failed: " = false) ∧
    (env.ffmpeg.ffmpegOnPath = true → env.ffmpeg.returncode ≠ 0 →
      convert_audio_to_wav env.ffmpeg =
        Except.error ("Audio conversion failed: " ++
          ("FFmpeg conversion failed: " ++ env.ffmpeg.stderr)) ∧
      strStartsWith ("Audio conversion failed: " ++
          ("FFmpeg conversion failed: " ++ env.ffmpeg.stderr))
        "Audio conversion failed: " = true) ∧
    (env.ffmpeg.ffmpegOnPath = true → env.ffmpeg.returncode = 0 →
      env.ffmpeg.outputExists = false ∨ env.ffmpeg.outputSize = 0 →
      convert_audio_to_wav env.ffmpeg =
        Except.error ("Audio conversion failed: " ++
          "Converted file is empty or doesn't exist") ∧
      strStartsWith ("Audio conversion failed: " ++
          "Converted file is empty or doesn't exist")
        "Audio conversion failed: " = true) ∧
    (∀ m, convert_audio_to_wav env.ffmpeg = Except.error m →
      (transcribe (TranscribeRequest.multipart (some B)) env).1 = ⟨500, errBody m⟩) := by
  refine ⟨?_, ?_, ?_, ?_⟩
  · intro hp
    refine ⟨by simp [convert_audio_to_wav, convert_body, hp], by decide⟩
  · intro hp hrc
    refine ⟨by simp [convert_audio_to_wav, convert_body, hp, hrc],
      strStartsWith_append _ _⟩
  · intro hp hrc hoe
    refine ⟨?_, strStartsWith_append _ _⟩
    unfold convert_audio_to_wav convert_body
    rw [if_neg (by simp [hp]), if_neg (by simp [hrc]), if_pos hoe]
  · intro m hm
    show (afterIngest env { rawCreated := true, rawSuffix := ".tmp", rawContents := B }).1 =
      ⟨500, errBody m⟩
    unfold afterIngest
    rw [hm]

/-- Witness for C9: the unprefixed message when the binary is missing,
and the prefixed message when FFmpeg exits zero with an empty output. -/
theorem conversion_error_wrapping_witness :
    envNoFfmpeg.ffmpeg.ffmpegOnPath = false ∧
    (convert_audio_to_wav envNoFfmpeg.ffmpeg =
        Except.error "FFmpeg not found. Install it with: apt install ffmpeg" ∧
      strStartsWith "FFmpeg not found. Install it with: apt install ffmpeg"
        "Audio conversion failed: " = false) ∧
    (convert_audio_to_wav envFfmpegEmptyOut.ffmpeg =
        Except.error ("Audio conversion failed: " ++
          "Converted file is empty or doesn't exist") ∧
      strStartsWith ("Audio conversion failed: " ++
          "Converted file is empty or doesn't exist")
        "Audio conversion failed: " = true) :=
  ⟨rfl, (conversion_error_wrapping envNoFfmpeg [1]).1 rfl,
    (conversion_error_wrapping envFfmpegEmptyOut [1]).2.2.1 rfl rfl (Or.inl rfl)⟩

/-- Every scratch trace of `/transcribe` is either the empty trace (an
input-error return before any temp file) or the result of running
`cleanup` on a trace with both artifacts created. -/
theorem transcribe_scratch_shape (req : TranscribeRequest) (env : Env) :
    (transcribe req env).2 = {} ∨
    ∃ s1 : Scratch, (transcribe req env).2 = cleanup env s1 ∧
      s1.rawCreated = true ∧ s1.wavCreated = true ∧ s1.convertCalled = true := by
  cases req with
  | multipart f =>
      cases f with
      | none => exact Or.inl rfl
      | some bytes =>
          obtain ⟨s1, hs1, -, -, hr, hw, hc⟩ := afterIngest_scratch_eq env
            { rawCreated := true, rawSuffix := ".tmp", rawContents := bytes }
          exact Or.inr ⟨s1, hs1, hr, hw, hc⟩
  | jsonBody a =>
      cases a with
      | none => exact Or.inl rfl
      | some s =>
          cases hb : b64decode s.data with
          | none => refine Or.inl ?_; simp [transcribe, hb]
          | some bytes =>
              obtain ⟨s1, hs1, -, -, hr, hw, hc⟩ := afterIngest_scratch_eq env
                { rawCreated := true, rawSuffix := ".aac", rawContents := bytes }
              refine Or.inr ⟨s1, ?_, hr, hw, hc⟩
              simp only [transcribe, hb]
              exact hs1
  | jsonMalformed e => exact Or.inl rfl
  | otherContentType => exact Or.inl rfl

/-- The response of `/transcribe` never depends on whether the unlinks in
the cleanup block fail: the bare `except: pass` swallows them. -/
theorem transcribe_resp_indep (req : TranscribeRequest) (env : Env) :
    (transcribe req env).1 =
      (transcribe req { env with unlinkRawFails := false, unlinkWavFails := false }).1 := by
  cases req with
  | multipart f =>
      cases f with
      | none => rfl
      | some bytes => exact afterIngest_resp_indep env _
  | jsonBody a =>
      cases a with
      | none => rfl
      | some s =>
          cases hb : b64decode s.data with
          | none => simp [transcribe, hb]
          | some bytes =>
              simp only [transcribe, hb]
              exact afterIngest_resp_indep env _
  | jsonMalformed e => rfl
  | otherContentType => rfl

/-- C1: on every exit path of the `/transcribe` handler (success,
malformed input, conversion failure, backend failure), every scratch
artifact created during the request is deleted before the handler
returns, provided the deletions themselves succeed; and a failing
deletion is swallowed, never changing the response. -/
theorem transcribe_scratch_cleanup (req : TranscribeRequest) (env : Env) :
    (env.unlinkRawFails = false → env.unlinkWavFails = false →
      ((transcribe req env).2.rawCreated = true → (transcribe req env).2.rawDeleted = true) ∧
      ((transcribe req env).2.wavCreated = true → (transcribe req env).2.wavDeleted = true)) ∧
    (transcribe req env).1 =
      (transcribe req { env with unlinkRawFails := false, unlinkWavFails := false }).1 := by
  constructor
  · intro h1 h2
    rcases transcribe_scratch_shape req env with hsh | ⟨s1, hsh, -, -, -⟩
    · refine ⟨?_, ?_⟩ <;> · rw [hsh]; intro hco; cases hco
    · have hd := cleanup_deletes env s1 h1 h2
      rw [hsh]
      exact ⟨fun _ => hd.1, fun _ => hd.2⟩
  · exact transcribe_resp_indep req env

/-- Witness for C1: on a concrete happy-path request with succeeding
deletions, both artifacts end up deleted. -/
theorem transcribe_scratch_cleanup_witness :
    envOk.unlinkRawFails = false ∧ envOk.unlinkWavFails = false ∧
    (transcribe (TranscribeRequest.multipart (some [1, 2])) envOk).2.rawCreated = true ∧
    (transcribe (TranscribeRequest.multipart (some [1, 2])) envOk).2.wavCreated = true ∧
    (transcribe (TranscribeRequest.multipart (some [1, 2])) envOk).2.rawDeleted = true ∧
    (transcribe (TranscribeRequest.multipart (some [1, 2])) envOk).2.wavDeleted = true :=
  ⟨rfl, rfl, by decide, by decide,
    ((transcribe_scratch_cleanup (TranscribeRequest.multipart (some [1, 2])) envOk).1
      rfl rfl).1 (by decide),
    ((transcribe_scratch_cleanup (TranscribeRequest.multipart (some [1, 2])) envOk).1
      rfl rfl).2 (by decide)⟩

/-- C3: a multipart upload of bytes `B` and a JSON upload of `base64(B)`
both produce a raw scratch artifact holding exactly `B`; only the
temp-file suffix hint differs (`.tmp` versus `.aac`). -/
theorem transcribe_envelope_agreement (B : List Nat) (env : Env)
    (h : ∀ b ∈ B, b < 256) :
    ((transcribe (TranscribeRequest.multipart (some B)) env).2.rawCreated = true ∧
     (transcribe (TranscribeRequest.multipart (some B)) env).2.rawContents = B ∧
     (transcribe (TranscribeRequest.multipart (some B)) env).2.rawSuffix = ".tmp") ∧
    ((transcribe (TranscribeRequest.jsonBody (some (String.mk (b64encode B)))) env).2.rawCreated = true ∧
     (transcribe (TranscribeRequest.jsonBody (some (String.mk (b64encode B)))) env).2.rawContents = B ∧
     (transcribe (TranscribeRequest.jsonBody (some (String.mk (b64encode B)))) env).2.rawSuffix = ".aac") := by
  have hdec : b64decode (String.mk (b64encode B)).data = some B := b64_roundtrip B h
  obtain ⟨s1, hs1, hcon1, hsuf1, hraw1, -, -⟩ := afterIngest_scratch_eq env
    { rawCreated := true, rawSuffix := ".tmp", rawContents := B }
  obtain ⟨s2, hs2, hcon2, hsuf2, hraw2, -, -⟩ := afterIngest_scratch_eq env
    { rawCreated := true, rawSuffix := ".aac", rawContents := B }
  have hp1 := cleanup_preserves env s1
  have hp2 := cleanup_preserves env s2
  have hm : (transcribe (TranscribeRequest.multipart (some B)) env).2 = cleanup env s1 := hs1
  have hj : (transcribe (TranscribeRequest.jsonBody (some (String.mk (b64encode B)))) env).2 =
      cleanup env s2 := by
    simp only [transcribe, hdec]
    exact hs2
  refine ⟨⟨?_, ?_, ?_⟩, ?_, ?_, ?_⟩
  · rw [hm, hp1.2.2.1, hraw1]
  · rw [hm, hp1.1, hcon1]
  · rw [hm, hp1.2.1, hsuf1]
  · rw [hj, hp2.2.2.1, hraw2]
  · rw [hj, hp2.1, hcon2]
  · rw [hj, hp2.2.1, hsuf2]

/-- Witness for C3: the bytes of "Man" (77, 97, 110), whose base64 form is
"TWFu", arrive identically through both envelopes. -/
theorem transcribe_envelope_agreement_witness :
    (∀ b ∈ [77, 97, 110], b < 256) ∧
    ((transcribe (TranscribeRequest.multipart (some [77, 97, 110])) envOk).2.rawContents =
      [77, 97, 110] ∧
     (transcribe (TranscribeRequest.jsonBody (some (String.mk (b64encode [77, 97, 110])))) envOk).2.rawContents =
      [77, 97, 110]) :=
  ⟨by decide,
    ((transcribe_envelope_agreement [77, 97, 110] envOk (by decide)).1).2.1,
    ((transcribe_envelope_agreement [77, 97, 110] envOk (by decide)).2).2.1⟩

/-- The inner block returns 200 only on the happy path, and then with the
body built from the Whisper reply. -/
theorem afterIngest_success (env : Env) (s0 : Scratch) (r : WhisperResp)
    (hw : env.whisper = Except.ok r) (hs : (afterIngest env s0).1.status = 200) :
    (afterIngest env s0).1 =
      ⟨200, [("status", JVal.str "success"),
             ("text", JVal.str ((r.text.getD "").trim)),
             ("language", JVal.str (r.language.getD "unknown"))]⟩ := by
  unfold afterIngest at hs ⊢
  cases hc : convert_audio_to_wav env.ffmpeg with
  | error m =>
      rw [hc] at hs
      simp at hs
  | ok b => rw [hw]

/-- C4: on a successful `/transcribe` run with backend reply `R`, the
handler returns 200 with body `status: success`, `text: trim(R.text)`
(empty default), `language: R.language` (default "unknown"); the
`duration` field of `R` never appears in the response. -/
theorem transcribe_success_response (req : TranscribeRequest) (env : Env) (r : WhisperResp)
    (hw : env.whisper = Except.ok r) (hs : (transcribe req env).1.status = 200) :
    (transcribe req env).1 =
      ⟨200, [("status", JVal.str "success"),
             ("text", JVal.str ((r.text.getD "").trim)),
             ("language", JVal.str (r.language.getD "unknown"))]⟩ ∧
    (transcribe req env).1.body.lookup "duration" = none := by
  have hmain : (transcribe req env).1 =
      ⟨200, [("status", JVal.str "success"),
             ("text", JVal.str ((r.text.getD "").trim)),
             ("language", JVal.str (r.language.getD "unknown"))]⟩ := by
    cases req with
    | multipart f =>
        cases f with
        | none => simp [transcribe] at hs
        | some bytes => exact afterIngest_success env _ r hw hs
    | jsonBody a =>
        cases a with
        | none => simp [transcribe] at hs
        | some s =>
            cases hb : b64decode s.data with
            | none => simp [transcribe, hb] at hs
            | some bytes =>
                simp only [transcribe, hb] at hs ⊢
                exact afterIngest_success env _ r hw hs
    | jsonMalformed e => simp [transcribe] at hs
    | otherContentType => simp [transcribe] at hs
  refine ⟨hmain, ?_⟩
  rw [hmain]
  rfl

/-- Witness for C4: a concrete happy-path run, whose text is trimmed and
whose body has no `duration` field. -/
theorem transcribe_success_response_witness :
    envOk.whisper = Except.ok ⟨some "  hello  ", some "en", some 3⟩ ∧
    (transcribe (TranscribeRequest.multipart (some [1])) envOk).1.status = 200 ∧
    ((transcribe (TranscribeRequest.multipart (some [1])) envOk).1 =
      ⟨200, [("status", JVal.str "success"),
             ("text", JVal.str (((⟨some "  hello  ", some "en", some 3⟩ : WhisperResp).text.getD "").trim)),
             ("language", JVal.str ((⟨some "  hello  ", some "en", some 3⟩ : WhisperResp).language.getD "unknown"))]⟩ ∧
     (transcribe (TranscribeRequest.multipart (some [1])) envOk).1.body.lookup "duration" = none) :=
  ⟨rfl, by decide,
    transcribe_success_response (TranscribeRequest.multipart (some [1])) envOk
      ⟨some "  hello  ", some "en", some 3⟩ rfl (by decide)⟩

/-- C5 (amended): a multipart request without a `file` field yields 400
with a message containing "No file provided"; a JSON request whose body
parses but is falsy or lacks the `audio_data` key yields 400 with a
message containing "No audio_data" (the code capitalises the "No"); a
JSON-content-type request whose body fails JSON parsing makes
`request.get_json()` raise, and the generic handler answers it with a 500
carrying the parser's message, not the line-74 400; in all three cases no
scratch artifact is created and neither the converter nor the backend is
called. -/
theorem transcribe_missing_field_400 (env : Env) (e : String) :
    ((transcribe (TranscribeRequest.multipart none) env).1.status = 400 ∧
     strContains (errMsgOf (transcribe (TranscribeRequest.multipart none) env).1)
       "No file provided" = true ∧
     (transcribe (TranscribeRequest.multipart none) env).2 = {}) ∧
    ((transcribe (TranscribeRequest.jsonBody none) env).1.status = 400 ∧
     strContains (errMsgOf (transcribe (TranscribeRequest.jsonBody none) env).1)
       "No audio_data" = true ∧
     (transcribe (TranscribeRequest.jsonBody none) env).2 = {}) ∧
    ((transcribe (TranscribeRequest.jsonMalformed e) env).1 = ⟨500, errBody e⟩ ∧
     (transcribe (TranscribeRequest.jsonMalformed e) env).2 = {}) := by
  have h1 : transcribe (TranscribeRequest.multipart none) env =
      (⟨400, errBody "No file provided"⟩, {}) := rfl
  have h2 : transcribe (TranscribeRequest.jsonBody none) env =
      (⟨400, errBody "No audio_data provided in JSON"⟩, {}) := rfl
  rw [h1, h2]
  exact ⟨⟨rfl, by decide, rfl⟩, ⟨rfl, by decide, rfl⟩, rfl, rfl⟩

/-- Counterexample for C5 as stated: the 400 message for a JSON request
without `audio_data` is "No audio_data provided in JSON", which does not
contain the lowercase string "no audio_data"; moreover, a JSON body that
fails parsing (`get_json` raising `BadRequest`) is answered 500 by the
generic handler, not 400. -/
theorem transcribe_no_audio_data_lowercase :
    ((transcribe (TranscribeRequest.jsonBody none) envOk).1.status = 400 ∧
     strContains (errMsgOf (transcribe (TranscribeRequest.jsonBody none) envOk).1)
       "no audio_data" = false) ∧
    (transcribe
      (TranscribeRequest.jsonMalformed
        "400 Bad Request: Failed to decode JSON object") envOk).1.status = 500 := by decide

/-- C6: a JSON request whose `audio_data` string fails base64 decoding
yields 400 (not 500 and not a crash) with a message containing
"Invalid base64", and no scratch artifact is created. -/
theorem transcribe_invalid_base64 (s : String) (env : Env)
    (h : b64decode s.data = none) :
    (transcribe (TranscribeRequest.jsonBody (some s)) env).1.status = 400 ∧
    strContains (errMsgOf (transcribe (TranscribeRequest.jsonBody (some s)) env).1)
      "Invalid base64" = true ∧
    (transcribe (TranscribeRequest.jsonBody (some s)) env).2 = {} := by
  have hres : transcribe (TranscribeRequest.jsonBody (some s)) env =
      (⟨400, errBody ("Invalid base64 audio data: " ++ env.b64errDetail)⟩, {}) := by
    simp [transcribe, h]
  rw [hres]
  refine ⟨rfl, ?_, rfl⟩
  show strContains ("Invalid base64 audio data: " ++ env.b64errDetail) "Invalid base64" = true
  exact strContains_prefix_append _ _ _ (by decide)

/-- Witness for C6: the one-character string "a" fails base64 decoding
and is answered with the 400 input error. -/
theorem transcribe_invalid_base64_witness :
    b64decode ("a" : String).data = none ∧
    ((transcribe (TranscribeRequest.jsonBody (some "a")) envOk).1.status = 400 ∧
     strContains (errMsgOf (transcribe (TranscribeRequest.jsonBody (some "a")) envOk).1)
       "Invalid base64" = true ∧
     (transcribe (TranscribeRequest.jsonBody (some "a")) envOk).2 = {}) :=
  ⟨by decide, transcribe_invalid_base64 "a" envOk (by decide)⟩

/-- C7: `/ask-ollama` posts exactly `{model: request model or the fixed
default, prompt, stream: false}`; a 2xx backend reply yields 200 with the
backend's `response` field (empty default); a request without a prompt
yields 400 with no post; a backend failure yields 500 with the error
message. -/
theorem ask_ollama_spec (req : OllamaRequest) (env : Except String OllamaResp) :
    (∀ p m, req = OllamaRequest.withJson (some p) m →
      (ask_ollama req env).1 = some ⟨m.getD ollamaDefaultModel, p, false⟩ ∧
      (∀ r, env = Except.ok r →
        (ask_ollama req env).2 =
          ⟨200, [("status", JVal.str "success"),
                 ("response", JVal.str (r.response.getD ""))]⟩) ∧
      (∀ msg, env = Except.error msg →
        (ask_ollama req env).2 = ⟨500, errBody msg⟩)) ∧
    ((req = OllamaRequest.noJson ∨ ∃ m, req = OllamaRequest.withJson none m) →
      (ask_ollama req env).1 = none ∧
      (ask_ollama req env).2 = ⟨400, errBody "No prompt provided"⟩) := by
  constructor
  · rintro p m rfl
    refine ⟨?_, ?_, ?_⟩
    · cases env <;> rfl
    · rintro r rfl; rfl
    · rintro msg rfl; rfl
  · rintro (rfl | ⟨m, rfl⟩) <;> exact ⟨rfl, rfl⟩

/-- Witness for C7: a concrete prompt without a model picks the default
model and forwards the backend's response. -/
theorem ask_ollama_spec_witness :
    (ask_ollama (OllamaRequest.withJson (some "hi") none) (Except.ok ⟨some "yo"⟩)).1 =
      some ⟨(none : Option String).getD ollamaDefaultModel, "hi", false⟩ ∧
    (ask_ollama (OllamaRequest.withJson (some "hi") none) (Except.ok ⟨some "yo"⟩)).2 =
      ⟨200, [("status", JVal.str "success"),
             ("response", JVal.str ((⟨some "yo"⟩ : OllamaResp).response.getD ""))]⟩ :=
  ⟨((ask_ollama_spec (OllamaRequest.withJson (some "hi") none) (Except.ok ⟨some "yo"⟩)).1
      "hi" none rfl).1,
   ((ask_ollama_spec (OllamaRequest.withJson (some "hi") none) (Except.ok ⟨some "yo"⟩)).1
      "hi" none rfl).2.1 ⟨some "yo"⟩ rfl⟩

/-- When the first unlink raises, the shared `try` block is abandoned and
the swallowed exception leaves both deletion flags untouched. -/
theorem afterIngest_not_deleted (env : Env) (s0 : Scratch) (h : env.unlinkRawFails = true)
    (hr : s0.rawDeleted = false) (hw : s0.wavDeleted = false) :
    (afterIngest env s0).2.rawDeleted = false ∧ (afterIngest env s0).2.wavDeleted = false := by
  unfold afterIngest
  cases hc : convert_audio_to_wav env.ffmpeg with
  | error m => simp [cleanup, h, hr, hw]
  | ok b => cases hw2 : env.whisper <;> simp [cleanup, h, hr, hw]

/-- C8: the two scratch-artifact deletions share one `try` block with a
single swallowed exception, so when deleting the raw-input artifact
raises, the canonical-output deletion is skipped entirely, while the
response is the same as with succeeding deletions. -/
theorem transcribe_coupled_unlinks (req : TranscribeRequest) (env : Env)
    (h : env.unlinkRawFails = true) :
    (transcribe req env).2.rawDeleted = false ∧
    (transcribe req env).2.wavDeleted = false ∧
    (transcribe req env).1 =
      (transcribe req { env with unlinkRawFails := false, unlinkWavFails := false }).1 := by
  have hd : (transcribe req env).2.rawDeleted = false ∧
      (transcribe req env).2.wavDeleted = false := by
    cases req with
    | multipart f =>
        cases f with
        | none => exact ⟨rfl, rfl⟩
        | some bytes => exact afterIngest_not_deleted env _ h rfl rfl
    | jsonBody a =>
        cases a with
        | none => exact ⟨rfl, rfl⟩
        | some s =>
            cases hb : b64decode s.data with
            | none => simp [transcribe, hb]
            | some bytes =>
                simp only [transcribe, hb]
                exact afterIngest_not_deleted env _ h rfl rfl
    | jsonMalformed e => exact ⟨rfl, rfl⟩
    | otherContentType => exact ⟨rfl, rfl⟩
  exact ⟨hd.1, hd.2, transcribe_resp_indep req env⟩

/-- Witness for C8: on a concrete happy-path request with a failing raw
unlink, the wav artifact was created and is left undeleted, yet the
response is the normal 200. -/
theorem transcribe_coupled_unlinks_witness :
    envUnlinkRaw.unlinkRawFails = true ∧
    (transcribe (TranscribeRequest.multipart (some [5])) envUnlinkRaw).2.wavCreated = true ∧
    (transcribe (TranscribeRequest.multipart (some [5])) envUnlinkRaw).1.status = 200 ∧
    ((transcribe (TranscribeRequest.multipart (some [5])) envUnlinkRaw).2.rawDeleted = false ∧
     (transcribe (TranscribeRequest.multipart (some [5])) envUnlinkRaw).2.wavDeleted = false ∧
     (transcribe (TranscribeRequest.multipart (some [5])) envUnlinkRaw).1 =
       (transcribe (TranscribeRequest.multipart (some [5]))
         { envUnlinkRaw with unlinkRawFails := false, unlinkWavFails := false }).1) :=
  ⟨rfl, by decide, by decide,
    transcribe_coupled_unlinks (TranscribeRequest.multipart (some [5])) envUnlinkRaw rfl⟩

/-- C10: a JSON request with `audio_data` equal to the empty string is
accepted by ingestion (no 400 branch fires): the empty string decodes to
zero bytes, an empty raw artifact is created, conversion is attempted,
and a conversion failure is reported as a 500, not a 400. -/
theorem transcribe_empty_audio_data (env : Env) :
    (transcribe (TranscribeRequest.jsonBody (some "")) env).2.rawCreated = true ∧
    (transcribe (TranscribeRequest.jsonBody (some "")) env).2.rawContents = [] ∧
    (transcribe (TranscribeRequest.jsonBody (some "")) env).2.convertCalled = true ∧
    (transcribe (TranscribeRequest.jsonBody (some "")) env).1.status ≠ 400 ∧
    (∀ m, convert_audio_to_wav env.ffmpeg = Except.error m →
      (transcribe (TranscribeRequest.jsonBody (some "")) env).1 = ⟨500, errBody m⟩) := by
  have htr : transcribe (TranscribeRequest.jsonBody (some "")) env =
      afterIngest env { rawCreated := true, rawSuffix := ".aac", rawContents := [] } := rfl
  obtain ⟨s1, hs1, hcon, hsuf, hraw, -, hcc⟩ := afterIngest_scratch_eq env
    { rawCreated := true, rawSuffix := ".aac", rawContents := [] }
  have hp := cleanup_preserves env s1
  refine ⟨?_, ?_, ?_, ?_, ?_⟩
  · rw [htr, hs1, hp.2.2.1, hraw]
  · rw [htr, hs1, hp.1, hcon]
  · rw [htr, hs1, hp.2.2.2.2.1, hcc]
  · rw [htr]
    rcases afterIngest_status env
      { rawCreated := true, rawSuffix := ".aac", rawContents := [] } with h | h <;>
      simp [h]
  · intro m hm
    rw [htr]
    unfold afterIngest
    rw [hm]

/-- Witness for C10: with the FFmpeg binary absent, the empty-string
upload reaches conversion and comes back as a 500 with the converter's
message. -/
theorem transcribe_empty_audio_data_witness :
    convert_audio_to_wav envNoFfmpeg.ffmpeg =
      Except.error "FFmpeg not found. Install it with: apt install ffmpeg" ∧
    (transcribe (TranscribeRequest.jsonBody (some "")) envNoFfmpeg).1 =
      ⟨500, errBody "FFmpeg not found. Install it with: apt install ffmpeg"⟩ :=
  ⟨rfl, (transcribe_empty_audio_data envNoFfmpeg).2.2.2.2 _ rfl⟩

end AudioServer
